import Mathlib

/-!
# Verification of the zia WebSocket frame codec and write multiplexer

Shallow embedding of `zia-common/src/ws/ws.rs` (frame decoder `recv_event`,
`recv`, close-payload parser `on_close`) and `zia-common/src/write.rs`
(`WritePool::update_addr`, `WritePool::execute`, `WriteConnection::flush`).

Bytes are modelled as natural numbers (values < 256 on real streams, though
most theorems need no such bound); the duplex byte stream is a `List Nat`
consumed from the front.  Fallible reads return `Except String`, the error
string carrying the same message the Rust code produces with `anyhow!`.
-/

namespace Zia

/-- `Role` from the ws module: `{Server, Client{masking}}`. -/
inductive Role where
  | server : Role
  | client (masking : Bool) : Role
deriving DecidableEq

/-- `Event` from the ws module: decoded inbound unit.  The close reason is
kept as its UTF-8 byte list (the Rust code stores the `String` built from
exactly these bytes after validation). -/
inductive Event where
  | data (payload : List Nat) : Event
  | close (code : Nat) (reason : List Nat) : Event
deriving DecidableEq

/-- The `WebSocket` connection state: `io` is passed separately as the byte
stream, the remaining fields mirror the Rust struct. -/
structure WebSocket where
  maxPayloadLen : Nat
  role : Role
  isClosed : Bool
deriving DecidableEq

/-- `AsyncReadExt::read_exact` on a list stream: take `n` bytes or fail. -/
def readExact (n : Nat) (s : List Nat) : Except String (List Nat × List Nat) :=
  if n ≤ s.length then .ok (s.take n, s.drop n) else .error "failed to fill whole buffer"

/-- Big-endian read of `k` bytes (`read_u16` is `readBE 2`, `read_u64` is
`readBE 8`). -/
def readBE (k : Nat) (s : List Nat) : Except String (Nat × List Nat) :=
  match readExact k s with
  | .ok (bytes, rest) => .ok (bytes.foldl (fun a b => a * 256 + b) 0, rest)
  | .error e => .error e

/-- The unmask loop of `read_payload`: `data[i] ^= mask[i & 3]`, with `i`
counted from `i0`. -/
def unmaskFrom (mask : List Nat) (i0 : Nat) : List Nat → List Nat
  | [] => []
  | b :: t => (b ^^^ mask.getD (i0 &&& 3) 0) :: unmaskFrom mask (i0 + 1) t

/-- `WebSocket::read_payload`: a Server-role reader strips and applies the
4-byte mask when the frame is masked; a Client-role reader reads directly. -/
def readPayload (role : Role) (masked : Bool) (len : Nat) (s : List Nat) :
    Except String (List Nat × List Nat) :=
  match role with
  | .server =>
    if masked then
      match readExact 4 s with
      | .ok (mask, s1) =>
        match readExact len s1 with
        | .ok (data, s2) => .ok (unmaskFrom mask 0 data, s2)
        | .error e => .error e
      | .error e => .error e
    else readExact len s
  | .client _ => readExact len s

/-- The Rust `match` guard on close codes in `on_close`:
`1000..=1003 | 1007..=1011 | 1015 | 3000..=3999 | 4000..=4999`. -/
def validCloseCode (code : Nat) : Bool :=
  (1000 ≤ code && code ≤ 1003) || (1007 ≤ code && code ≤ 1011) || code == 1015 ||
    (3000 ≤ code && code ≤ 3999) || (4000 ≤ code && code ≤ 4999)

/-- Is `b` a UTF-8 continuation byte (`0x80..=0xBF`)? -/
def contB (b : Nat) : Bool := 0x80 ≤ b && b ≤ 0xBF

/-- UTF-8 validity of a byte list, as enforced by Rust's
`String::from_utf8` (RFC 3629: no overlong forms, no surrogates, max
U+10FFFF). -/
def validUtf8 : List Nat → Bool
  | [] => true
  | b :: t =>
    if b ≤ 0x7F then validUtf8 t else
    match t with
    | c1 :: t1 =>
      if 0xC2 ≤ b && b ≤ 0xDF then contB c1 && validUtf8 t1 else
      match t1 with
      | c2 :: t2 =>
        if b == 0xE0 then (0xA0 ≤ c1 && c1 ≤ 0xBF) && contB c2 && validUtf8 t2 else
        if (0xE1 ≤ b && b ≤ 0xEC) || b == 0xEE || b == 0xEF then
          contB c1 && contB c2 && validUtf8 t2 else
        if b == 0xED then (0x80 ≤ c1 && c1 ≤ 0x9F) && contB c2 && validUtf8 t2 else
        match t2 with
        | c3 :: t3 =>
          if b == 0xF0 then (0x90 ≤ c1 && c1 ≤ 0xBF) && contB c2 && contB c3 && validUtf8 t3 else
          if 0xF1 ≤ b && b ≤ 0xF3 then contB c1 && contB c2 && contB c3 && validUtf8 t3 else
          if b == 0xF4 then (0x80 ≤ c1 && c1 ≤ 0x8F) && contB c2 && contB c3 && validUtf8 t3 else
          false
        | [] => false
      | [] => false
    | [] => false

/-- `on_close`: the first two bytes, when present, are a big-endian status
code (default 1000); the code must lie in the accepted ranges; the rest is
UTF-8 reason text (absent remainder means empty reason). -/
def on_close (msg : List Nat) : Except String Event :=
  let code := match msg with
    | b0 :: b1 :: _ => b0 * 256 + b1
    | _ => 1000
  if validCloseCode code then
    match msg with
    | _ :: _ :: rest =>
      if validUtf8 rest then .ok (.close code rest)
      else .error "invalid utf-8 payload"
    | _ => .ok (.close code [])
  else .error "invalid close code"

/-- Body of `recv_event` after the header checks: control-frame handling
(opcode ≥ 8) and the binary-data branch with extended length decoding. -/
def recvBody (ws : WebSocket) (fin : Bool) (opcode len0 : Nat) (isMasked : Bool)
    (s0 : List Nat) : Except String (Event × List Nat) :=
  if opcode ≥ 8 then
    if !fin then .error "control frame must not be fragmented"
    else if len0 > 125 then .error "control frame must have a payload length of 125 bytes or less"
    else
      match readPayload ws.role isMasked len0 s0 with
      | .ok (msg, s1) =>
        if opcode = 8 then
          match on_close msg with
          | .ok e => .ok (e, s1)
          | .error e => .error e
        else .error "unknown opcode"
      | .error e => .error e
  else
    if opcode = 2 ∧ fin then
      match (if len0 = 126 then readBE 2 s0 else if len0 = 127 then readBE 8 s0
             else .ok (len0, s0)) with
      | .ok (len, s1) =>
        if len > ws.maxPayloadLen then .error "payload too large"
        else
          match readPayload ws.role isMasked len s1 with
          | .ok (data, s2) => .ok (.data data, s2)
          | .error e => .error e
      | .error e => .error e
    else .error "invalid data frame"

/-- `WebSocket::recv_event`: read the two header bytes, check the reserved
bits and the masking direction (a Server-role reader accepts either mask
state — the strict RFC check is commented out in the source), then decode
the frame body. -/
def recv_event (ws : WebSocket) (s : List Nat) : Except String (Event × List Nat) :=
  match s with
  | b1 :: b2 :: s0 =>
    let fin : Bool := b1 &&& 128 ≠ 0
    let rsv := b1 &&& 112
    let opcode := b1 &&& 15
    let len0 := b2 &&& 127
    let isMasked : Bool := b2 &&& 128 ≠ 0
    if rsv ≠ 0 then .error "reserve bit must be `0`"
    else
      match ws.role with
      | .client _ =>
        if isMasked then .error "expected unmasked frame"
        else recvBody ws fin opcode len0 isMasked s0
      | .server => recvBody ws fin opcode len0 isMasked s0
  | _ => .error "failed to fill whole buffer"

/-- `WebSocket::recv`: fail immediately when already closed (without looking
at the stream); otherwise decode one event and latch the closed flag on a
Close event or on any error.  Returns the result together with the updated
connection state. -/
def recv (ws : WebSocket) (s : List Nat) :
    Except String (Event × List Nat) × WebSocket :=
  if ws.isClosed then (.error "read after close", ws)
  else
    match recv_event ws s with
    | .ok (.close c r, s') => (.ok (.close c r, s'), { ws with isClosed := true })
    | .ok (.data d, s') => (.ok (.data d, s'), ws)
    | .error e => (.error e, { ws with isClosed := true })

/-- Big-endian byte encoding of `n` on `k` bytes (most significant first). -/
def beBytes : Nat → Nat → List Nat
  | 0, _ => []
  | k + 1, n => beBytes k (n / 256) ++ [n % 256]

/-- The mask loop of the frame writer: payload byte `i` (from `i0`) XORed
with `key[i mod 4]`. -/
def maskFrom (mask : List Nat) (i0 : Nat) : List Nat → List Nat
  | [] => []
  | b :: t => (b ^^^ mask.getD (i0 % 4) 0) :: maskFrom mask (i0 + 1) t

/-- The length field of a frame header: 7-bit literal for lengths ≤ 125,
`126` + 2 bytes big-endian up to 65535, `127` + 8 bytes big-endian beyond;
`maskBit` (0 or 128) is OR-ed into the first length byte. -/
def lenBytes (maskBit len : Nat) : List Nat :=
  if len ≤ 125 then [maskBit + len]
  else if len < 65536 then (maskBit + 126) :: beBytes 2 len
  else (maskBit + 127) :: beBytes 8 len

/-- Modelled from the spec: `Frame::write_without_mask` lives in the ws
module's frame file, which is not under `src/`.  Per §4.1 and the header
diagram in `ws.rs`, it writes byte 1 = FIN(1)+RSV(3 zero)+opcode(4),
byte 2 = MASK(0)+len7, the extended length when needed, then the payload
verbatim. -/
def write_without_mask (fin : Bool) (opcode : Nat) (payload : List Nat) : List Nat :=
  ((if fin then 128 else 0) + opcode) :: lenBytes 0 payload.length ++ payload

/-- Modelled from the spec: `Frame::write_with_mask`, also absent from
`src/`.  Same header with the MASK bit set, followed by the 4-byte mask key
and the payload XOR-masked with `key[i mod 4]`. -/
def write_with_mask (fin : Bool) (opcode : Nat) (payload mask : List Nat) : List Nat :=
  ((if fin then 128 else 0) + opcode) :: lenBytes 128 payload.length ++ mask ++
    maskFrom mask 0 payload

/-- `WebSocket::send` (from `ws.rs`): Server role writes unmasked; Client
role writes masked with a fresh random key when masking is enabled (the key
is passed explicitly here), unmasked otherwise. -/
def send (role : Role) (mask : List Nat) (fin : Bool) (opcode : Nat)
    (payload : List Nat) : List Nat :=
  match role with
  | .server => write_without_mask fin opcode payload
  | .client masking =>
    if masking then write_with_mask fin opcode payload mask
    else write_without_mask fin opcode payload

/-! ## The write multiplexer (`zia-common/src/write.rs`) -/

/-- A socket address; only equality of addresses is ever inspected. -/
structure SocketAddr where
  ip : Nat
  port : Nat
deriving DecidableEq

/-- `WritePool::update_addr`: read the tracker cell, mark it outdated when
it is empty or holds a different address, and only then write.  Returns the
new cell contents and whether a write occurred. -/
def update_addr (state : Option SocketAddr) (addr : SocketAddr) :
    Option SocketAddr × Bool :=
  let is_outdated := (state.map fun last => decide (last ≠ addr)).getD true
  if is_outdated then (some addr, true) else (state, false)

/-- Feed a sequence of observed source addresses through `update_addr`,
counting tracker writes. -/
def feedAddrs (state : Option SocketAddr) : List SocketAddr → Option SocketAddr × Nat
  | [] => (state, 0)
  | a :: t =>
    let r := update_addr state a
    let rest := feedAddrs r.1 t
    (rest.1, (if r.2 then 1 else 0) + rest.2)

/-- Modelled from the spec: the crate-root constant `MAX_DATAGRAM_SIZE` and
`datagram_buffer` are not under `src/`; the spec fixes only that the staging
buffer's capacity equals the maximum datagram size.  The concrete value is
irrelevant to every theorem below. -/
def MAX_DATAGRAM_SIZE : Nat := 65535

/-- `UdpSocket::recv_from` into a buffer of capacity `cap` returns the
number of bytes written, never more than the buffer's length. -/
def recvFromLen (datagram : List Nat) (cap : Nat) : Nat :=
  min datagram.length cap

/-- `WriteConnection::flush(size)`: `assert!(size <= MAX_DATAGRAM_SIZE)`
(modelled as an `Except.error` carrying the panic message), then send
`Message::Binary(&buf[..size])`. -/
def flush (size : Nat) (buf : List Nat) : Except String (List Nat) :=
  if size ≤ MAX_DATAGRAM_SIZE then .ok (buf.take size)
  else .error "assertion failed: size <= MAX_DATAGRAM_SIZE"

/-- State of a `WriteConnection` as seen by the pool's liveness check. -/
structure WriteConnState where
  isClosed : Bool
deriving DecidableEq

/-- Outcome of one iteration of `WritePool::execute`. -/
inductive StepOutcome where
  /-- Pool empty: warn, sleep 1 s, continue (UDP socket untouched). -/
  | sleepRetry : StepOutcome
  /-- Acquired entry reports closed: drop it and retry immediately. -/
  | skipClosed : StepOutcome
  /-- Datagram staged, tracker updated, flush task spawned. -/
  | dispatched (tracker : Option SocketAddr) (size : Nat) : StepOutcome
  /-- `recv_from` failed: the `.unwrap()` panics, aborting the loop. -/
  | panicked (msg : String) : StepOutcome
deriving DecidableEq

/-- One iteration of the `WritePool::execute` loop: acquire, liveness
check, `recv_from` (whose result is `.unwrap()`-ed — an error panics rather
than being returned as a `Result`), tracker update, spawn of the flush. -/
def executeStep (acquired : Option WriteConnState)
    (recvFrom : Except String (Nat × SocketAddr))
    (tracker : Option SocketAddr) : StepOutcome :=
  match acquired with
  | none => .sleepRetry
  | some conn =>
    if conn.isClosed then .skipClosed
    else
      match recvFrom with
      | .error e => .panicked e
      | .ok (read, addr) => .dispatched (update_addr tracker addr).1 read

/-! ## Helper lemmas -/

theorem and127_eq_mod (n : Nat) : n &&& 127 = n % 128 := by
  have := Nat.and_pow_two_sub_one_eq_mod n 7
  norm_num at this
  omega

theorem and128_of_lt {n : Nat} (h : n < 128) : n &&& 128 = 0 := by
  have := Nat.and_two_pow n 7
  norm_num at this
  rw [this, Nat.testBit_lt_two_pow (by omega)]
  simp

theorem add128_and128 {n : Nat} (h : n < 128) : (128 + n) &&& 128 = 128 := by
  have := Nat.and_two_pow (128 + n) 7
  norm_num at this
  rw [this, Nat.testBit_to_div_mod]
  have h2 : (128 + n) / 128 = 1 := by omega
  simp [h2]

theorem and3_eq_mod (i : Nat) : i &&& 3 = i % 4 := by
  have := Nat.and_pow_two_sub_one_eq_mod i 2
  norm_num at this
  omega

theorem readExact_append (front rest : List Nat) :
    readExact front.length (front ++ rest) = .ok (front, rest) := by
  simp [readExact]

theorem readExact_ok_length {n : Nat} {s d s' : List Nat}
    (h : readExact n s = .ok (d, s')) : d.length = n := by
  unfold readExact at h
  split at h
  next hle =>
    simp only [Except.ok.injEq, Prod.mk.injEq] at h
    rw [← h.1, List.length_take]
    omega
  next => exact absurd h (by simp)

theorem readExact_append_of_length {n : Nat} (front rest : List Nat)
    (h : front.length = n) : readExact n (front ++ rest) = .ok (front, rest) := by
  subst h
  exact readExact_append front rest

theorem beBytes_length (k n : Nat) : (beBytes k n).length = k := by
  induction k generalizing n with
  | zero => rfl
  | succ k ih => simp [beBytes, ih]

theorem foldl_beBytes (k : Nat) :
    ∀ (n a : Nat), n < 256 ^ k →
      (beBytes k n).foldl (fun a b => a * 256 + b) a = a * 256 ^ k + n := by
  induction k with
  | zero =>
    intro n a h
    simp at h
    simp [beBytes, h]
  | succ k ih =>
    intro n a h
    have hdiv : n / 256 < 256 ^ k := by
      rw [Nat.div_lt_iff_lt_mul (by omega)]
      calc n < 256 ^ (k + 1) := h
        _ = 256 ^ k * 256 := by rw [pow_succ]
    simp only [beBytes, List.foldl_append, List.foldl_cons, List.foldl_nil, ih _ _ hdiv]
    have : (a * 256 ^ k + n / 256) * 256 + n % 256 =
        a * (256 ^ k * 256) + (256 * (n / 256) + n % 256) := by ring
    rw [this, Nat.div_add_mod, pow_succ]

theorem readBE_beBytes {k n : Nat} (rest : List Nat) (h : n < 256 ^ k) :
    readBE k (beBytes k n ++ rest) = .ok (n, rest) := by
  have hl := beBytes_length k n
  unfold readBE
  rw [readExact_append_of_length _ _ hl]
  simp [foldl_beBytes k n 0 h]

theorem maskFrom_length (mask : List Nat) (i0 : Nat) (p : List Nat) :
    (maskFrom mask i0 p).length = p.length := by
  induction p generalizing i0 with
  | nil => rfl
  | cons b t ih => simp [maskFrom, ih]

theorem unmaskFrom_length (mask : List Nat) (i0 : Nat) (p : List Nat) :
    (unmaskFrom mask i0 p).length = p.length := by
  induction p generalizing i0 with
  | nil => rfl
  | cons b t ih => simp [unmaskFrom, ih]

theorem unmaskFrom_maskFrom (mask : List Nat) (i0 : Nat) (p : List Nat) :
    unmaskFrom mask i0 (maskFrom mask i0 p) = p := by
  induction p generalizing i0 with
  | nil => rfl
  | cons b t ih =>
    simp only [maskFrom, unmaskFrom, and3_eq_mod, ih]
    rw [Nat.xor_assoc, Nat.xor_self, Nat.xor_zero]

theorem readPayload_ok_length {role : Role} {masked : Bool} {len : Nat}
    {s d s' : List Nat} (h : readPayload role masked len s = .ok (d, s')) :
    d.length = len := by
  unfold readPayload at h
  cases role with
  | client m => exact readExact_ok_length h
  | server =>
    cases masked with
    | false =>
      simp only [Bool.false_eq_true, if_false] at h
      exact readExact_ok_length h
    | true =>
      simp only [if_true] at h
      cases h4 : readExact 4 s with
      | error e => rw [h4] at h; exact absurd h (by simp)
      | ok p =>
        obtain ⟨mask, s1⟩ := p
        rw [h4] at h
        dsimp only at h
        cases h5 : readExact len s1 with
        | error e => rw [h5] at h; exact absurd h (by simp)
        | ok q =>
          obtain ⟨data, s2⟩ := q
          rw [h5] at h
          simp only [Except.ok.injEq, Prod.mk.injEq] at h
          rw [← h.1, unmaskFrom_length]
          exact readExact_ok_length h5

/-! ## Round-trip lemmas -/


theorem readPayload_unmasked (role : Role) (len : Nat) (s : List Nat) :
    readPayload role false len s = readExact len s := by
  cases role <;> simp [readPayload]

theorem readPayload_masked_server (mask P rest : List Nat) (hm : mask.length = 4) :
    readPayload .server true P.length (mask ++ (maskFrom mask 0 P ++ rest)) =
      .ok (P, rest) := by
  simp only [readPayload, if_true]
  rw [readExact_append_of_length mask _ hm]
  dsimp only
  rw [readExact_append_of_length (maskFrom mask 0 P) rest (maskFrom_length mask 0 P)]
  dsimp only
  rw [unmaskFrom_maskFrom]

theorem recvBody_data_core (ws : WebSocket) (len0 : Nat) (isM : Bool)
    (P s0 s1 rest : List Nat)
    (h1 : P.length ≤ ws.maxPayloadLen)
    (hs : (if len0 = 126 then readBE 2 s0 else if len0 = 127 then readBE 8 s0
           else .ok (len0, s0)) = .ok (P.length, s1))
    (hrp : readPayload ws.role isM P.length s1 = .ok (P, rest)) :
    recvBody ws true 2 len0 isM s0 = .ok (.data P, rest) := by
  simp only [recvBody]
  norm_num
  rw [hs]
  dsimp only
  rw [if_neg (by omega : ¬ ws.maxPayloadLen < P.length), hrp]

theorem recv_event_130 (ws : WebSocket) (b2 : Nat) (s0 : List Nat) :
    recv_event ws (130 :: b2 :: s0) =
      match ws.role with
      | .client _ =>
        if decide (b2 &&& 128 ≠ 0) then .error "expected unmasked frame"
        else recvBody ws true 2 (b2 &&& 127) (decide (b2 &&& 128 ≠ 0)) s0
      | .server => recvBody ws true 2 (b2 &&& 127) (decide (b2 &&& 128 ≠ 0)) s0 := by
  have c1 : (130 : Nat) &&& 112 = 0 := by decide
  have c2 : (130 : Nat) &&& 128 = 128 := by decide
  have c3 : (130 : Nat) &&& 15 = 2 := by decide
  simp only [recv_event, c1, c2, c3]
  norm_num



theorem recv_event_write_without_mask (ws : WebSocket) (P rest : List Nat)
    (h1 : P.length ≤ ws.maxPayloadLen) (h2 : P.length < 2 ^ 64) :
    recv_event ws (write_without_mask true 2 P ++ rest) = .ok (.data P, rest) := by
  rcases Nat.lt_or_ge P.length 126 with hA | hge
  · have e1 : write_without_mask true 2 P ++ rest = 130 :: P.length :: (P ++ rest) := by
      simp [write_without_mask, lenBytes, if_pos (by omega : P.length ≤ 125)]
    have hb : P.length &&& 127 = P.length := by rw [and127_eq_mod]; omega
    have hm : P.length &&& 128 = 0 := and128_of_lt (by omega)
    rw [e1, recv_event_130]
    have hbody : recvBody ws true 2 P.length false (P ++ rest) = .ok (.data P, rest) :=
      recvBody_data_core ws P.length false P (P ++ rest) (P ++ rest) rest h1
        (by rw [if_neg (by omega : ¬ P.length = 126), if_neg (by omega : ¬ P.length = 127)])
        (by rw [readPayload_unmasked]; exact readExact_append P rest)
    cases ws.role <;> simp only [hb, hm] <;> norm_num <;> exact hbody
  · rcases Nat.lt_or_ge P.length 65536 with hB | hge2
    · have e1 : write_without_mask true 2 P ++ rest =
          130 :: 126 :: (beBytes 2 P.length ++ (P ++ rest)) := by
        simp [write_without_mask, lenBytes, if_neg (by omega : ¬ P.length ≤ 125), if_pos hB]
      have c4 : (126 : Nat) &&& 127 = 126 := by decide
      have c5 : (126 : Nat) &&& 128 = 0 := by decide
      rw [e1, recv_event_130]
      have hbody : recvBody ws true 2 126 false (beBytes 2 P.length ++ (P ++ rest)) =
          .ok (.data P, rest) :=
        recvBody_data_core ws 126 false P (beBytes 2 P.length ++ (P ++ rest)) (P ++ rest) rest h1
          (by rw [if_pos rfl]; exact readBE_beBytes (P ++ rest) (by simpa using hB))
          (by rw [readPayload_unmasked]; exact readExact_append P rest)
      cases ws.role <;> simp only [c4, c5] <;> norm_num <;> exact hbody
    · have e1 : write_without_mask true 2 P ++ rest =
          130 :: 127 :: (beBytes 8 P.length ++ (P ++ rest)) := by
        simp [write_without_mask, lenBytes, if_neg (by omega : ¬ P.length ≤ 125),
          if_neg (by omega : ¬ P.length < 65536)]
      have c4 : (127 : Nat) &&& 127 = 127 := by decide
      have c5 : (127 : Nat) &&& 128 = 0 := by decide
      rw [e1, recv_event_130]
      have hbody : recvBody ws true 2 127 false (beBytes 8 P.length ++ (P ++ rest)) =
          .ok (.data P, rest) :=
        recvBody_data_core ws 127 false P (beBytes 8 P.length ++ (P ++ rest)) (P ++ rest) rest h1
          (by rw [if_neg (by omega : ¬ (127 : Nat) = 126), if_pos rfl]
              exact readBE_beBytes (P ++ rest) (by simpa using h2))
          (by rw [readPayload_unmasked]; exact readExact_append P rest)
      cases ws.role <;> simp only [c4, c5] <;> norm_num <;> exact hbody

theorem recv_event_write_with_mask (ws : WebSocket) (P mask rest : List Nat)
    (hrole : ws.role = .server) (h1 : P.length ≤ ws.maxPayloadLen)
    (h2 : P.length < 2 ^ 64) (hm : mask.length = 4) :
    recv_event ws (write_with_mask true 2 P mask ++ rest) = .ok (.data P, rest) := by
  have hrp : readPayload ws.role true P.length (mask ++ (maskFrom mask 0 P ++ rest)) =
      .ok (P, rest) := by
    rw [hrole]; exact readPayload_masked_server mask P rest hm
  rcases Nat.lt_or_ge P.length 126 with hA | hge
  · have e1 : write_with_mask true 2 P mask ++ rest =
        130 :: (128 + P.length) :: (mask ++ (maskFrom mask 0 P ++ rest)) := by
      simp [write_with_mask, lenBytes, if_pos (by omega : P.length ≤ 125)]
    have hb : (128 + P.length) &&& 127 = P.length := by rw [and127_eq_mod]; omega
    have hmk : (128 + P.length) &&& 128 = 128 := add128_and128 (by omega)
    rw [e1, recv_event_130, hrole]
    simp only [hb, hmk]
    norm_num
    exact recvBody_data_core ws P.length true P _ _ rest h1
      (by rw [if_neg (by omega : ¬ P.length = 126), if_neg (by omega : ¬ P.length = 127)]) hrp
  · rcases Nat.lt_or_ge P.length 65536 with hB | hge2
    · have e1 : write_with_mask true 2 P mask ++ rest =
          130 :: 254 :: (beBytes 2 P.length ++ (mask ++ (maskFrom mask 0 P ++ rest))) := by
        simp [write_with_mask, lenBytes, if_neg (by omega : ¬ P.length ≤ 125), if_pos hB]
      have c4 : (254 : Nat) &&& 127 = 126 := by decide
      have c5 : (254 : Nat) &&& 128 = 128 := by decide
      rw [e1, recv_event_130, hrole]
      simp only [c4, c5]
      norm_num
      exact recvBody_data_core ws 126 true P _ _ rest h1
        (by rw [if_pos rfl]; exact readBE_beBytes _ (by simpa using hB)) hrp
    · have e1 : write_with_mask true 2 P mask ++ rest =
          130 :: 255 :: (beBytes 8 P.length ++ (mask ++ (maskFrom mask 0 P ++ rest))) := by
        simp [write_with_mask, lenBytes, if_neg (by omega : ¬ P.length ≤ 125),
          if_neg (by omega : ¬ P.length < 65536)]
      have c4 : (255 : Nat) &&& 127 = 127 := by decide
      have c5 : (255 : Nat) &&& 128 = 128 := by decide
      rw [e1, recv_event_130, hrole]
      simp only [c4, c5]
      norm_num
      exact recvBody_data_core ws 127 true P _ _ rest h1
        (by rw [if_neg (by omega : ¬ (127 : Nat) = 126), if_pos rfl]
            exact readBE_beBytes _ (by simpa using h2)) hrp

/-! ## `recv`-level helper lemmas -/

theorem recv_of_event_data {ws : WebSocket} {s P rest} (h0 : ws.isClosed = false)
    (h : recv_event ws s = .ok (.data P, rest)) :
    recv ws s = (.ok (.data P, rest), ws) := by
  rw [recv, if_neg (by simp [h0]), h]

theorem recv_fst_error {ws : WebSocket} {s : List Nat} {e : String}
    (h0 : ws.isClosed = false) (h : recv_event ws s = .error e) :
    recv ws s = (.error e, { ws with isClosed := true }) := by
  rw [recv, if_neg (by simp [h0]), h]

theorem recv_ok_event {ws : WebSocket} {s s' : List Nat} {ev : Event}
    (h0 : ws.isClosed = false) (h : (recv ws s).1 = .ok (ev, s')) :
    recv_event ws s = .ok (ev, s') := by
  rw [recv, if_neg (by simp [h0])] at h
  cases he : recv_event ws s with
  | ok p =>
    obtain ⟨ev', s''⟩ := p
    rw [he] at h
    cases ev' <;> simp_all
  | error e => rw [he] at h; simp at h

theorem readExact_of_le {n : Nat} {s : List Nat} (h : n ≤ s.length) :
    readExact n s = .ok (s.take n, s.drop n) := by
  simp [readExact, h]

/-! ## Payload-bound lemmas -/

theorem on_close_ok {msg : List Nat} {ev : Event} (h : on_close msg = .ok ev) :
    ∃ c r, ev = .close c r ∧ r.length ≤ msg.length - 2 := by
  cases msg with
  | nil =>
    rw [show on_close [] = .ok (.close 1000 []) from rfl] at h
    injection h with h'
    exact ⟨1000, [], h'.symm, by simp⟩
  | cons b0 t =>
    cases t with
    | nil =>
      rw [show on_close [b0] = .ok (.close 1000 []) from rfl] at h
      injection h with h'
      exact ⟨1000, [], h'.symm, by simp⟩
    | cons b1 rest =>
      unfold on_close at h
      dsimp only at h
      split at h
      · split at h
        · injection h with h'
          exact ⟨_, _, h'.symm, by simp⟩
        · exact absurd h (by simp)
      · exact absurd h (by simp)

theorem recvBody_ok_bounds {ws : WebSocket} {fin : Bool} {opcode len0 : Nat}
    {isM : Bool} {s0 s' : List Nat} {ev : Event}
    (h : recvBody ws fin opcode len0 isM s0 = .ok (ev, s')) :
    (∀ p, ev = .data p → p.length ≤ ws.maxPayloadLen) ∧
    (∀ c r, ev = .close c r → r.length ≤ 123) := by
  unfold recvBody at h
  split at h
  · split at h
    · exact absurd h (by simp)
    · split at h
      · exact absurd h (by simp)
      next hlen =>
        cases hrp : readPayload ws.role isM len0 s0 with
        | error e => rw [hrp] at h; exact absurd h (by simp)
        | ok p =>
          obtain ⟨msg, s1⟩ := p
          rw [hrp] at h
          dsimp only at h
          split at h
          · cases hoc : on_close msg with
            | error e => rw [hoc] at h; exact absurd h (by simp)
            | ok e =>
              rw [hoc] at h
              simp only [Except.ok.injEq, Prod.mk.injEq] at h
              obtain ⟨c, r, hev, hr⟩ := on_close_ok hoc
              have hmsg := readPayload_ok_length hrp
              refine ⟨fun p hp => ?_, fun c' r' hc => ?_⟩
              · rw [← h.1] at hp; rw [hev] at hp; exact absurd hp (by simp)
              · rw [← h.1] at hc; rw [hev] at hc
                simp only [Event.close.injEq] at hc
                rw [← hc.2]
                omega
          · exact absurd h (by simp)
  · split at h
    · cases hlr : (if len0 = 126 then readBE 2 s0 else if len0 = 127 then readBE 8 s0
                   else .ok (len0, s0)) with
      | error e => rw [hlr] at h; exact absurd h (by simp)
      | ok p =>
        obtain ⟨len, s1⟩ := p
        rw [hlr] at h
        dsimp only at h
        split at h
        · exact absurd h (by simp)
        next hle =>
          cases hrp : readPayload ws.role isM len s1 with
          | error e => rw [hrp] at h; exact absurd h (by simp)
          | ok q =>
            obtain ⟨data, s2⟩ := q
            rw [hrp] at h
            simp only [Except.ok.injEq, Prod.mk.injEq] at h
            have hdl := readPayload_ok_length hrp
            refine ⟨fun p hp => ?_, fun c r hc => ?_⟩
            · rw [← h.1] at hp
              simp only [Event.data.injEq] at hp
              rw [← hp]
              omega
            · rw [← h.1] at hc; exact absurd hc (by simp)
    · exact absurd h (by simp)

theorem recv_event_ok_bounds {ws : WebSocket} {s s' : List Nat} {ev : Event}
    (h : recv_event ws s = .ok (ev, s')) :
    (∀ p, ev = .data p → p.length ≤ ws.maxPayloadLen) ∧
    (∀ c r, ev = .close c r → r.length ≤ 123) := by
  cases s with
  | nil => exact absurd h (by simp [recv_event])
  | cons b1 t =>
    cases t with
    | nil => exact absurd h (by simp [recv_event])
    | cons b2 s0 =>
      simp only [recv_event] at h
      split at h
      · exact absurd h (by simp)
      · cases hr : ws.role with
        | server =>
          rw [hr] at h
          dsimp only at h
          exact recvBody_ok_bounds h
        | client m =>
          rw [hr] at h
          dsimp only at h
          split at h
          · exact absurd h (by simp)
          · exact recvBody_ok_bounds h

/-! ## Error-path lemmas -/

theorem recv_event_client_masked {ws : WebSocket} {m : Bool}
    (hrole : ws.role = .client m) (b1 b2 : Nat) (rest : List Nat)
    (hm : b2 &&& 128 ≠ 0) :
    ∃ e, recv_event ws (b1 :: b2 :: rest) = .error e := by
  simp only [recv_event, hrole]
  by_cases hrsv : b1 &&& 112 = 0
  · refine ⟨"expected unmasked frame", ?_⟩
    rw [if_neg (by omega), if_pos (by simpa using hm)]
  · exact ⟨"reserve bit must be `0`", by rw [if_pos hrsv]⟩

theorem recv_event_rsv (ws : WebSocket) (b1 b2 : Nat) (s0 : List Nat)
    (hrsv : b1 &&& 112 ≠ 0) :
    recv_event ws (b1 :: b2 :: s0) = .error "reserve bit must be `0`" := by
  simp only [recv_event]
  rw [if_pos hrsv]

theorem recv_event_cons_server (ws : WebSocket) (hrole : ws.role = .server)
    (b1 b2 : Nat) (s0 : List Nat) (hrsv : b1 &&& 112 = 0) :
    recv_event ws (b1 :: b2 :: s0) =
      recvBody ws (decide (b1 &&& 128 ≠ 0)) (b1 &&& 15) (b2 &&& 127)
        (decide (b2 &&& 128 ≠ 0)) s0 := by
  simp only [recv_event, hrole]
  rw [if_neg (by omega)]

theorem recv_event_cons_client_unmasked (ws : WebSocket) (m : Bool)
    (hrole : ws.role = .client m) (b1 b2 : Nat) (s0 : List Nat)
    (hrsv : b1 &&& 112 = 0) (hmsk : b2 &&& 128 = 0) :
    recv_event ws (b1 :: b2 :: s0) =
      recvBody ws (decide (b1 &&& 128 ≠ 0)) (b1 &&& 15) (b2 &&& 127) false s0 := by
  simp only [recv_event, hrole, hmsk]
  rw [if_neg (by omega)]
  simp

theorem recvBody_ctrl_notfin (ws : WebSocket) (opcode len0 : Nat) (im : Bool)
    (s0 : List Nat) (hop : opcode ≥ 8) :
    recvBody ws false opcode len0 im s0 =
      .error "control frame must not be fragmented" := by
  simp [recvBody, hop]

theorem recvBody_ctrl_toolong (ws : WebSocket) (opcode len0 : Nat) (im : Bool)
    (s0 : List Nat) (hop : opcode ≥ 8) (hl : len0 > 125) :
    recvBody ws true opcode len0 im s0 =
      .error "control frame must have a payload length of 125 bytes or less" := by
  simp [recvBody, hop, hl]

theorem recvBody_ctrl_unknown (ws : WebSocket) (opcode len0 : Nat) (s0 : List Nat)
    (hop : opcode ≥ 8) (hop8 : opcode ≠ 8) (hl : ¬ len0 > 125) (hs : len0 ≤ s0.length) :
    recvBody ws true opcode len0 false s0 = .error "unknown opcode" := by
  simp only [recvBody, if_pos hop, Bool.not_true, Bool.false_eq_true, if_false,
    if_neg hl, readPayload_unmasked, readExact_of_le hs]
  rw [if_neg hop8]

theorem recv_event_ctrl_error (ws : WebSocket) (b1 b2 : Nat) (rest : List Nat)
    (hop : b1 &&& 15 ≥ 8) (hbad : b1 &&& 128 = 0 ∨ b2 &&& 127 > 125) :
    ∃ e, recv_event ws (b1 :: b2 :: rest) = .error e := by
  by_cases hrsv : b1 &&& 112 = 0
  · have hbody : ∀ im : Bool, ∃ e,
        recvBody ws (decide (b1 &&& 128 ≠ 0)) (b1 &&& 15) (b2 &&& 127) im rest =
          .error e := by
      intro im
      by_cases hfin : b1 &&& 128 = 0
      · have hf : decide (b1 &&& 128 ≠ 0) = false := by simp [hfin]
        rw [hf]
        exact ⟨_, recvBody_ctrl_notfin ws _ _ im rest hop⟩
      · have hf : decide (b1 &&& 128 ≠ 0) = true := by simpa using hfin
        rw [hf]
        have hlen : b2 &&& 127 > 125 := by tauto
        exact ⟨_, recvBody_ctrl_toolong ws _ _ im rest hop hlen⟩
    cases hr : ws.role with
    | server =>
      obtain ⟨e, he⟩ := hbody (decide (b2 &&& 128 ≠ 0))
      exact ⟨e, by rw [recv_event_cons_server ws hr b1 b2 rest hrsv]; exact he⟩
    | client m =>
      by_cases hmsk : b2 &&& 128 = 0
      · obtain ⟨e, he⟩ := hbody false
        exact ⟨e, by
          rw [recv_event_cons_client_unmasked ws m hr b1 b2 rest hrsv hmsk]; exact he⟩
      · exact recv_event_client_masked hr b1 b2 rest hmsk
  · exact ⟨_, recv_event_rsv ws b1 b2 rest hrsv⟩

/-- A data frame whose declared length exceeds the maximum fails with
"payload too large" even though the stream holds no payload bytes at all:
the bound is checked before any payload is read. -/
theorem recvBody_too_large_empty (ws : WebSocket) (len0 : Nat)
    (hl : len0 ≤ 125) (hmax : len0 > ws.maxPayloadLen) :
    recvBody ws true 2 len0 false [] = .error "payload too large" := by
  simp only [recvBody]
  norm_num
  rw [if_neg (by omega : ¬ len0 = 126), if_neg (by omega : ¬ len0 = 127)]
  dsimp only
  rw [if_pos hmax]

/-! ## Claims -/

/-- C1: Round-trip of the frame codec: encoding a binary frame carrying a
payload `P` with `|P| ≤ max_payload_len` via `send` and decoding the
resulting bytes via `recv` on the same byte stream yields `Data(P)`
unchanged, for every payload length (the universally quantified length
covers all three length encodings: ≤125 literal, 126 + 2-byte, 127 +
8-byte), for each sender role: Server (unmasked), Client with masking (any
4-byte key, decoded by a Server-role reader), and Client without masking. -/
theorem C1_frame_roundtrip (maxLen : Nat) (rrole : Role) (P mask rest : List Nat)
    (h1 : P.length ≤ maxLen) (h2 : P.length < 2 ^ 64) (h3 : mask.length = 4) :
    recv ⟨maxLen, rrole, false⟩ (send .server mask true 2 P ++ rest) =
        (.ok (.data P, rest), ⟨maxLen, rrole, false⟩) ∧
      recv ⟨maxLen, .server, false⟩ (send (.client true) mask true 2 P ++ rest) =
        (.ok (.data P, rest), ⟨maxLen, .server, false⟩) ∧
      recv ⟨maxLen, rrole, false⟩ (send (.client false) mask true 2 P ++ rest) =
        (.ok (.data P, rest), ⟨maxLen, rrole, false⟩) := by
  refine ⟨?_, ?_, ?_⟩
  · exact recv_of_event_data rfl
      (recv_event_write_without_mask ⟨maxLen, rrole, false⟩ P rest h1 h2)
  · exact recv_of_event_data rfl
      (recv_event_write_with_mask ⟨maxLen, .server, false⟩ P mask rest rfl h1 h2 h3)
  · show recv _ (write_without_mask true 2 P ++ rest) = _
    exact recv_of_event_data rfl
      (recv_event_write_without_mask ⟨maxLen, rrole, false⟩ P rest h1 h2)

/-- Witness for C1 at a concrete payload. -/
theorem C1_frame_roundtrip_witness :
    recv ⟨3, .server, false⟩ (send .server [1, 2, 3, 4] true 2 [1, 2, 3] ++ [9]) =
      (.ok (.data [1, 2, 3], [9]), ⟨3, .server, false⟩) :=
  (C1_frame_roundtrip 3 .server [1, 2, 3] [1, 2, 3, 4] [9] (by norm_num) (by norm_num)
    rfl).1

/-- C2 counterexample: with `max_payload_len = 0`, `recv` still succeeds on a
close frame carrying a 4-byte payload (code 1000, reason "hi"): the decoded
close payload (4 bytes) and even the reason alone (2 bytes) exceed the
configured maximum, refuting the claim that every successfully decoded
payload is bounded by `max_payload_len`. -/
theorem C2_payload_bound_counterexample :
    (recv ⟨0, .server, false⟩ [136, 4, 3, 232, 104, 105]).1 =
      .ok (.close 1000 [104, 105], []) ∧
    ¬ (([3, 232, 104, 105] : List Nat).length ≤ (0 : Nat)) ∧
    ¬ (([104, 105] : List Nat).length ≤ (0 : Nat)) := by
  refine ⟨?_, by simp, by simp⟩
  rfl

/-- C2 (amended): every successful `recv` of a Data event yields a payload of
length at most `max_payload_len`; a Close event's reason is only bounded by
the 125-byte control-frame limit (hence ≤ 123 bytes), independent of
`max_payload_len`.  For Data frames the bound is checked on the declared
length before the payload is read: a frame declaring an oversize length
fails with "payload too large" even when the stream holds no payload
bytes. -/
theorem C2_payload_bound_amended :
    (∀ (ws : WebSocket) (s s' : List Nat) (ev : Event), ws.isClosed = false →
      (recv ws s).1 = .ok (ev, s') →
      (∀ p, ev = .data p → p.length ≤ ws.maxPayloadLen) ∧
      (∀ c r, ev = .close c r → r.length ≤ 123)) ∧
    (∀ (maxLen : Nat) (r : Role) (b2 : Nat), b2 &&& 127 ≤ 125 →
      b2 &&& 127 > maxLen → b2 &&& 128 = 0 →
      (recv ⟨maxLen, r, false⟩ [130, b2]).1 = .error "payload too large") := by
  constructor
  · intro ws s s' ev h0 h
    exact recv_event_ok_bounds (recv_ok_event h0 h)
  · intro maxLen r b2 h1 h2 hmsk
    have hf : decide ((130 : Nat) &&& 128 ≠ 0) = true := by decide
    have hop : (130 : Nat) &&& 15 = 2 := by decide
    have hm2 : decide (b2 &&& 128 ≠ 0) = false := by simp [hmsk]
    have he : recv_event ⟨maxLen, r, false⟩ [130, b2] = .error "payload too large" := by
      cases r with
      | server =>
        rw [recv_event_cons_server _ rfl 130 b2 [] (by decide), hm2, hf, hop]
        exact recvBody_too_large_empty _ _ h1 h2
      | client m =>
        rw [recv_event_cons_client_unmasked _ m rfl 130 b2 [] (by decide) hmsk, hf, hop]
        exact recvBody_too_large_empty _ _ h1 h2
    rw [recv_fst_error rfl he]

/-- Witness for the amended C2 at a concrete data frame. -/
theorem C2_payload_bound_amended_witness :
    ((recv ⟨5, .server, false⟩ [130, 1, 7]).1 = .ok (.data [7], []) ∧
      ([7] : List Nat).length ≤ 5) ∧
    (recv ⟨0, .server, false⟩ [130, 1]).1 = .error "payload too large" :=
  ⟨⟨rfl, (C2_payload_bound_amended.1 ⟨5, .server, false⟩ [130, 1, 7] [] (.data [7])
      rfl rfl).1 [7] rfl⟩,
   C2_payload_bound_amended.2 0 .server 1 (by decide) (by decide) (by decide)⟩

/-- C3: a `recv` on a closed connection fails immediately with
"read after close", returning the state unchanged and independent of the
stream (it is never read); any `recv` returning an error or a Close event
leaves the closed flag true; the flag is monotonic — once true it stays
true, since the closed branch returns the state unchanged. -/
theorem C3_post_close (ws : WebSocket) (s : List Nat) :
    (ws.isClosed = true → recv ws s = (.error "read after close", ws)) ∧
    (∀ e, (recv ws s).1 = .error e → (recv ws s).2.isClosed = true) ∧
    (∀ c r s', (recv ws s).1 = .ok (.close c r, s') → (recv ws s).2.isClosed = true) := by
  by_cases h : ws.isClosed
  · refine ⟨fun _ => by rw [recv, if_pos h], fun e _ => ?_, fun c r s' hk => ?_⟩
    · rw [recv, if_pos h]; exact h
    · rw [recv, if_pos h] at hk ⊢; exact h
  · refine ⟨fun hc => absurd hc h, ?_, ?_⟩
    · intro e he
      rw [recv, if_neg h] at he ⊢
      cases hev : recv_event ws s with
      | ok p =>
        obtain ⟨ev, s''⟩ := p
        rw [hev] at he
        cases ev <;> simp_all
      | error e' => simp
    · intro c r s' hk
      rw [recv, if_neg h] at hk ⊢
      cases hev : recv_event ws s with
      | ok p =>
        obtain ⟨ev, s''⟩ := p
        rw [hev] at hk
        cases ev <;> simp_all
      | error e' => simp_all

/-- Witness for C3: a closed connection rejects a read without touching the
stream. -/
theorem C3_post_close_witness :
    recv ⟨0, .server, true⟩ [130] = (.error "read after close", ⟨0, .server, true⟩) :=
  (C3_post_close ⟨0, .server, true⟩ [130]).1 rfl

/-- C4: a Client-role reader fails on any frame whose mask bit is set,
while a Server-role reader accepts frames regardless of the mask bit —
it decodes both the masked and the unmasked encoding of the same payload
to the same Data event. -/
theorem C4_masking_direction :
    (∀ (maxLen : Nat) (m : Bool) (b1 b2 : Nat) (rest : List Nat), b2 &&& 128 ≠ 0 →
      ∃ e, (recv ⟨maxLen, .client m, false⟩ (b1 :: b2 :: rest)).1 = .error e) ∧
    (∀ (maxLen : Nat) (P mask rest : List Nat), P.length ≤ maxLen →
      P.length < 2 ^ 64 → mask.length = 4 →
      (recv ⟨maxLen, .server, false⟩ (write_with_mask true 2 P mask ++ rest)).1 =
        .ok (.data P, rest) ∧
      (recv ⟨maxLen, .server, false⟩ (write_without_mask true 2 P ++ rest)).1 =
        .ok (.data P, rest)) := by
  constructor
  · intro maxLen m b1 b2 rest hm
    obtain ⟨e, he⟩ :=
      recv_event_client_masked
        (show WebSocket.role ⟨maxLen, .client m, false⟩ = .client m from rfl) b1 b2 rest hm
    exact ⟨e, by rw [recv_fst_error rfl he]⟩
  · intro maxLen P mask rest h1 h2 h3
    constructor
    · rw [recv_of_event_data rfl
        (recv_event_write_with_mask ⟨maxLen, .server, false⟩ P mask rest rfl h1 h2 h3)]
    · rw [recv_of_event_data rfl
        (recv_event_write_without_mask ⟨maxLen, .server, false⟩ P rest h1 h2)]

/-- Witness for C4 at concrete frames. -/
theorem C4_masking_direction_witness :
    (∃ e, (recv ⟨9, .client true, false⟩ [130, 129, 1]).1 = .error e) ∧
    (recv ⟨9, .server, false⟩ (write_with_mask true 2 [1, 2] [3, 4, 5, 6] ++ [7])).1 =
      .ok (.data [1, 2], [7]) :=
  ⟨C4_masking_direction.1 9 true 130 129 [1] (by decide),
   (C4_masking_direction.2 9 [1, 2] [3, 4, 5, 6] [7] (by norm_num) (by norm_num)
     rfl).1⟩

/-- C5: close-payload decoding: fewer than 2 bytes yields code 1000 and an
empty reason; otherwise the first two bytes are the big-endian status code,
which must lie in 1000–1003, 1007–1011, 1015, 3000–3999 or 4000–4999 (the
accepted-range characterisation is the last conjunct); the remaining bytes
must be valid UTF-8 (the reason), otherwise decoding fails. -/
theorem C5_close_payload (msg : List Nat) :
    (msg.length < 2 → on_close msg = .ok (.close 1000 [])) ∧
    (∀ b0 b1 rest, msg = b0 :: b1 :: rest →
      (validCloseCode (b0 * 256 + b1) = false →
        on_close msg = .error "invalid close code") ∧
      (validCloseCode (b0 * 256 + b1) = true →
        (validUtf8 rest = true → on_close msg = .ok (.close (b0 * 256 + b1) rest)) ∧
        (validUtf8 rest = false → on_close msg = .error "invalid utf-8 payload"))) ∧
    (∀ c : Nat, validCloseCode c = true ↔
      (1000 ≤ c ∧ c ≤ 1003) ∨ (1007 ≤ c ∧ c ≤ 1011) ∨ c = 1015 ∨
      (3000 ≤ c ∧ c ≤ 3999) ∨ (4000 ≤ c ∧ c ≤ 4999)) := by
  refine ⟨?_, ?_, ?_⟩
  · intro hlen
    match msg, hlen with
    | [], _ => rfl
    | [b], _ => rfl
  · rintro b0 b1 rest rfl
    constructor
    · intro hvc
      unfold on_close
      dsimp only
      rw [if_neg (by simp [hvc])]
    · intro hvc
      constructor
      · intro hu
        unfold on_close
        dsimp only
        rw [if_pos hvc, if_pos hu]
      · intro hu
        unfold on_close
        dsimp only
        rw [if_pos hvc, if_neg (by simp [hu])]
  · intro c
    simp only [validCloseCode, Bool.or_eq_true, Bool.and_eq_true, decide_eq_true_eq,
      beq_iff_eq]
    omega

/-- Witness for C5: a short payload, an accepted code with a reason, and a
rejected code. -/
theorem C5_close_payload_witness :
    on_close [7] = .ok (.close 1000 []) ∧
    on_close [3, 232, 104, 105] = .ok (.close 1000 [104, 105]) ∧
    on_close [3, 236] = .error "invalid close code" := by
  refine ⟨(C5_close_payload [7]).1 (by decide), ?_, ?_⟩
  · have := ((C5_close_payload [3, 232, 104, 105]).2.1 3 232 [104, 105] rfl).2
      (by decide) |>.1 (by decide)
    simpa using this
  · have := ((C5_close_payload [3, 236]).2.1 3 236 [] rfl).1 (by decide)
    simpa using this

/-- C6: for an inbound frame with a control opcode (≥ 8), `recv` fails when
FIN is clear, and fails when the 7-bit length exceeds 125; among control
opcodes only 8 (close) is handled — any other control opcode fails as
"unknown opcode". -/
theorem C6_control_rules (maxLen : Nat) (r : Role) (b1 b2 : Nat) (rest : List Nat)
    (hop : b1 &&& 15 ≥ 8) :
    (b1 &&& 128 = 0 →
      ∃ e, (recv ⟨maxLen, r, false⟩ (b1 :: b2 :: rest)).1 = .error e) ∧
    (b2 &&& 127 > 125 →
      ∃ e, (recv ⟨maxLen, r, false⟩ (b1 :: b2 :: rest)).1 = .error e) ∧
    (b1 &&& 112 = 0 → b2 &&& 128 = 0 → b1 &&& 128 ≠ 0 → b2 &&& 127 ≤ 125 →
      b1 &&& 15 ≠ 8 → b2 &&& 127 ≤ rest.length →
      (recv ⟨maxLen, r, false⟩ (b1 :: b2 :: rest)).1 = .error "unknown opcode") := by
  refine ⟨?_, ?_, ?_⟩
  · intro hfin
    obtain ⟨e, he⟩ := recv_event_ctrl_error ⟨maxLen, r, false⟩ b1 b2 rest hop (.inl hfin)
    exact ⟨e, by rw [recv_fst_error rfl he]⟩
  · intro hlen
    obtain ⟨e, he⟩ := recv_event_ctrl_error ⟨maxLen, r, false⟩ b1 b2 rest hop (.inr hlen)
    exact ⟨e, by rw [recv_fst_error rfl he]⟩
  · intro hrsv hmsk hfin hlen hop8 hrest
    have hf : decide (b1 &&& 128 ≠ 0) = true := by simpa using hfin
    have hm2 : decide (b2 &&& 128 ≠ 0) = false := by simp [hmsk]
    have he : recv_event ⟨maxLen, r, false⟩ (b1 :: b2 :: rest) =
        .error "unknown opcode" := by
      cases r with
      | server =>
        rw [recv_event_cons_server _ rfl _ _ _ hrsv, hm2, hf]
        exact recvBody_ctrl_unknown _ _ _ _ hop hop8 (by omega) hrest
      | client m =>
        rw [recv_event_cons_client_unmasked _ m rfl _ _ _ hrsv hmsk, hf]
        exact recvBody_ctrl_unknown _ _ _ _ hop hop8 (by omega) hrest
    rw [recv_fst_error rfl he]

/-- Witness for C6: a fragmented close, an oversize close, a ping (opcode 9). -/
theorem C6_control_rules_witness :
    (∃ e, (recv ⟨9, .server, false⟩ [8, 0]).1 = .error e) ∧
    (∃ e, (recv ⟨9, .server, false⟩ [136, 126]).1 = .error e) ∧
    (recv ⟨9, .server, false⟩ [137, 1, 5]).1 = .error "unknown opcode" :=
  ⟨(C6_control_rules 9 .server 8 0 [] (by decide)).1 (by decide),
   (C6_control_rules 9 .server 136 126 [] (by decide)).2.1 (by decide),
   (C6_control_rules 9 .server 137 1 [5] (by decide)).2.2 (by decide) (by decide)
     (by decide) (by decide) (by decide) (by decide)⟩

/-- C7: feeding source addresses A, A, B into a tracker currently recording
A leaves it holding B with exactly one write (on the A→B transition, none on
the A→A repeat); in general, `update_addr` writes exactly when the observed
address differs from the recorded cell contents. -/
theorem C7_address_tracking (A B : SocketAddr) (hAB : A ≠ B) :
    feedAddrs (some A) [A, A, B] = (some B, 1) ∧
    (∀ (st : Option SocketAddr) (a : SocketAddr),
      (update_addr st a).2 = true ↔ st ≠ some a) := by
  constructor
  · simp [feedAddrs, update_addr, hAB]
  · intro st a
    cases st with
    | none => simp [update_addr]
    | some x =>
      by_cases hx : x = a <;> simp [update_addr, hx]

/-- Witness for C7 at two concrete distinct addresses. -/
theorem C7_address_tracking_witness :
    feedAddrs (some ⟨0, 0⟩) [⟨0, 0⟩, ⟨0, 0⟩, ⟨0, 1⟩] = (some ⟨0, 1⟩, 1) :=
  (C7_address_tracking ⟨0, 0⟩ ⟨0, 1⟩ (by simp)).1

/-- C8: when the UDP receive in the execute loop fails, the iteration
panics (the `.unwrap()` aborts) instead of returning the error as a
`Result`; on success the iteration dispatches a flush with the tracker
updated. -/
theorem C8_udp_failure_panics (conn : WriteConnState) (tracker : Option SocketAddr)
    (e : String) (h : conn.isClosed = false) :
    executeStep (some conn) (.error e) tracker = .panicked e ∧
    (∀ read addr, executeStep (some conn) (.ok (read, addr)) tracker =
      .dispatched (update_addr tracker addr).1 read) := by
  constructor
  · simp [executeStep, h]
  · intro read addr; simp [executeStep, h]

/-- Witness for C8 at a concrete failed receive. -/
theorem C8_udp_failure_panics_witness :
    executeStep (some ⟨false⟩) (.error "udp recv failed") none =
      .panicked "udp recv failed" :=
  (C8_udp_failure_panics ⟨false⟩ none "udp recv failed" rfl).1

/-- C9: with the tracker cell empty (`None`), `update_addr` always writes
the observed address — the first datagram ever received triggers a tracker
write. -/
theorem C9_first_datagram_write (a : SocketAddr) :
    update_addr none a = (some a, true) := rfl

/-- C10: `flush(size)` panics (modelled as an error) exactly when `size`
exceeds `MAX_DATAGRAM_SIZE`; but the size produced by `recv_from` into the
fixed `MAX_DATAGRAM_SIZE` buffer never exceeds the buffer capacity, so as
invoked from the execute loop the assertion never fires. -/
theorem C10_flush_assert :
    (∀ (datagram buf : List Nat),
      flush (recvFromLen datagram MAX_DATAGRAM_SIZE) buf =
        .ok (buf.take (recvFromLen datagram MAX_DATAGRAM_SIZE))) ∧
    (∀ (size : Nat) (buf : List Nat), size > MAX_DATAGRAM_SIZE →
      flush size buf = .error "assertion failed: size <= MAX_DATAGRAM_SIZE") := by
  constructor
  · intro datagram buf
    rw [flush, if_pos]
    exact Nat.min_le_right _ _
  · intro size buf h
    rw [flush, if_neg (by omega)]

/-- Witness for C10 at a concrete oversize value and a concrete datagram. -/
theorem C10_flush_assert_witness :
    flush (recvFromLen [1, 2, 3] MAX_DATAGRAM_SIZE) [9] = .ok [9] ∧
    flush 65536 [1] = .error "assertion failed: size <= MAX_DATAGRAM_SIZE" :=
  ⟨by
    have := C10_flush_assert.1 [1, 2, 3] [9]
    simpa [recvFromLen, MAX_DATAGRAM_SIZE] using this,
   C10_flush_assert.2 65536 [1] (by norm_num [MAX_DATAGRAM_SIZE])⟩

end Zia
